import Mathlib

/-!
Shallow embedding of the speccy-conv converter (speccy-conv.py) in Lean 4.

Byte strings are modelled as `List Nat` with entries below 256, text as Lean
`String`.  Python code that can raise is modelled in `Except PyErr`, with one
constructor per exception class the embedded code can actually raise.  A few
Python-semantics helper functions make cross-type comparisons explicit:
in Python an `int` never compares equal to a `bytes` value, and an `int` has
no `decode` method; both facts matter for the behaviour of the header codec
and the soft-EOF checks and are modelled by the `py_`-prefixed helpers below.
-/

set_option maxRecDepth 4096

/-- Exceptions the embedded code can raise. -/
inductive PyErr where
  | attributeError
  | structError
  | unicodeDecodeError
  | assertionError
  | indexError
deriving DecidableEq, Repr

/-- Python semantics of comparing an int (a byte obtained by indexing a bytes
value) with a bytes object: values of different types are never equal. -/
def py_eq_int_bytes (_ : Nat) (_ : List Nat) : Bool := false

/-- Python semantics of the corresponding inequality test. -/
def py_ne_int_bytes (n : Nat) (b : List Nat) : Bool := ! py_eq_int_bytes n b

/-- Python semantics of calling `.decode(...)` on an int (a byte obtained by
indexing or iterating a bytes value): ints have no decode method, so the call
raises AttributeError. -/
def py_int_decode (_ : Nat) : Except PyErr String := .error .attributeError

/-- Python semantics of `d.get(intKey, default)` on a dictionary keyed by
bytes objects: an int key is never present, so the default is returned. -/
def py_dict_get_int_key (_ : List (Nat × String)) (_ : Nat) (default : String) :
    String := default

/-- Python semantics of `intKey in d` for a dictionary keyed by bytes
objects: an int key is never a member. -/
def py_int_in_bytes_dict (_ : Nat) : Bool := false

/-- Strict utf-8 decoding of a single byte, as `bytes([b]).decode("utf_8")`:
bytes below 0x80 decode to themselves, anything else raises. -/
def bytes1_decode_utf8 (b : Nat) : Except PyErr String :=
  if b < 0x80 then .ok (String.singleton (Char.ofNat b)) else .error .unicodeDecodeError

/-- utf-8 encoding of one character, as Python `ch.encode("utf_8")`. -/
def charEncodeUtf8 (c : Char) : List Nat :=
  let n := c.toNat
  if n < 0x80 then [n]
  else if n < 0x800 then [0xC0 + n / 64, 0x80 + n % 64]
  else if n < 0x10000 then [0xE0 + n / 4096, 0x80 + n / 64 % 64, 0x80 + n % 64]
  else [0xF0 + n / 262144, 0x80 + n / 4096 % 64, 0x80 + n / 64 % 64, 0x80 + n % 64]

/-- Python `str.rstrip()` (used before parsing each text line). -/
def py_rstrip (s : String) : String :=
  String.mk ((s.toList.reverse.dropWhile Char.isWhitespace).reverse)

/-- `struct.pack("<B", n)`: one byte, raising struct.error when out of range. -/
def pack_le8 (n : Nat) : Except PyErr (List Nat) :=
  if n < 256 then .ok [n] else .error .structError

/-- `struct.pack("<H", n)`: two little-endian bytes, raising struct.error when
out of range. -/
def pack_le16 (n : Nat) : Except PyErr (List Nat) :=
  if n < 65536 then .ok [n % 256, n / 256] else .error .structError

/-- `struct.pack("<I", n)`: four little-endian bytes, raising struct.error
when out of range. -/
def pack_le32 (n : Nat) : Except PyErr (List Nat) :=
  if n < 4294967296 then
    .ok [n % 256, n / 256 % 256, n / 65536 % 256, n / 16777216 % 256]
  else .error .structError

/-- `struct.unpack("<H", ...)` on two bytes. -/
def le16 (lo hi : Nat) : Nat := lo + 256 * hi

/-- `struct.unpack(">H", ...)` on two bytes. -/
def be16 (hi lo : Nat) : Nat := 256 * hi + lo

/-- `struct.unpack("<I", ...)` on four bytes. -/
def le32 (b0 b1 b2 b3 : Nat) : Nat := b0 + 256 * b1 + 65536 * b2 + 16777216 * b3

/-- `bytes.ljust(width, pad)` for byte strings. -/
def ljust (l : List Nat) (width : Nat) (pad : Nat) : List Nat :=
  l ++ List.replicate (width - l.length) pad

/-- `str.ljust(width)` (pads with spaces on the right). -/
def ljust_str (s : String) (width : Nat) : String :=
  s ++ String.mk (List.replicate (width - s.length) (' '))

/-- Right-justification as done by the `f-string` width specifier `nd`
(pads with spaces on the left, never truncates). -/
def rjust (width : Nat) (s : String) : String :=
  String.mk (List.replicate (width - s.length) (' ')) ++ s

/-- Concatenation of the images of a list, used to model per-character
translation loops. -/
def concat_map (f : α → List β) : List α → List β
  | [] => []
  | a :: l => f a ++ concat_map f l

/-- Lookup of a byte in a byte-keyed association table (Python bytes-keyed
dict, accessed with a 1-byte bytes object). -/
def lookupByte (d : List (Nat × String)) (b : Nat) : Option String :=
  List.lookup b d

/-- `SOFT_EOF_BYTE = b"\x1A"`. -/
def SOFT_EOF_BYTE : List Nat := [0x1A]

/-- `SINCLAIR_BASIC_LINE_IS_VARIABLE = 0x4000`. -/
def SINCLAIR_BASIC_LINE_IS_VARIABLE : Nat := 0x4000

/-- `SINCLAIR_BASIC_NUMBER_LENGTH = 5`. -/
def SINCLAIR_BASIC_NUMBER_LENGTH : Nat := 5

/-- `SINCLAIR_BASIC_NUMBER_MARKER = b"\x0E"`. -/
def SINCLAIR_BASIC_NUMBER_MARKER : List Nat := [0x0E]

/-- `SINCLAIR_BASIC_TAPE_HEADER_MARKER = b"\x00"`. -/
def SINCLAIR_BASIC_TAPE_HEADER_MARKER : List Nat := [0x00]
/-- Byte-to-text table for the ZX Spectrum 128K, +2 and +3 encoding, an
association list keyed by byte value, transcribed entry for entry from the
source dictionary (string values are copied verbatim from the source file,
including its double-encoded non-ASCII sequences). -/
def dict_spectrum128_to_unicode : List (Nat × String) := [
  (0x06, "\t"),
  (0x0D, "\n"),
  (0x5E, "\u201A\u00DC\u00EB"),
  (0x60, "\u00AC\u00A3"),
  (0x7F, "\u00AC\u00A9"),
  (0x80, "\u2800"),
  (0x81, "\u259D"),
  (0x82, "\u2598"),
  (0x83, "\u2580"),
  (0x84, "\u2597"),
  (0x85, "\u2590"),
  (0x86, "\u259A"),
  (0x87, "\u259C"),
  (0x88, "\u2596"),
  (0x89, "\u259E"),
  (0x8A, "\u258C"),
  (0x8B, "\u259B"),
  (0x8C, "\u2584"),
  (0x8D, "\u259F"),
  (0x8E, "\u2599"),
  (0x8F, "\u2588"),
  (0x90, "\uF8FF\u00FC\u00D6\u221E"),
  (0x91, "\uF8FF\u00FC\u00D6\u00B1"),
  (0x92, "\uF8FF\u00FC\u00D6\u2264"),
  (0x93, "\uF8FF\u00FC\u00D6\u2265"),
  (0x94, "\uF8FF\u00FC\u00D6\u00A5"),
  (0x95, "\uF8FF\u00FC\u00D6\u00B5"),
  (0x96, "\uF8FF\u00FC\u00D6\u2202"),
  (0x97, "\uF8FF\u00FC\u00D6\u2211"),
  (0x98, "\uF8FF\u00FC\u00D6\u220F"),
  (0x99, "\uF8FF\u00FC\u00D6\u03C0"),
  (0x9A, "\uF8FF\u00FC\u00D6\u222B"),
  (0x9B, "\uF8FF\u00FC\u00D6\u00AA"),
  (0x9C, "\uF8FF\u00FC\u00D6\u00BA"),
  (0x9D, "\uF8FF\u00FC\u00D6\u03A9"),
  (0x9E, "\uF8FF\u00FC\u00D6\u00E6"),
  (0x9F, "\uF8FF\u00FC\u00D6\u00F8"),
  (0xA0, "\uF8FF\u00FC\u00DC\u00C4"),
  (0xA1, "\uF8FF\u00FC\u00DC\u00C5"),
  (0xA2, "\uF8FF\u00FC\u00DC\u00C7"),
  (0xA3, " SPECTRUM "),
  (0xA4, " PLAY "),
  (0xA5, "RND"),
  (0xA6, "INKEY$"),
  (0xA7, "PI"),
  (0xA8, "FN "),
  (0xA9, "POINT "),
  (0xAA, "SCREEN$ "),
  (0xAB, "ATTR "),
  (0xAC, "AT "),
  (0xAD, "TAB "),
  (0xAE, "VAL$ "),
  (0xAF, "CODE "),
  (0xB0, "VAL "),
  (0xB1, "LEN "),
  (0xB2, "SIN "),
  (0xB3, "COS "),
  (0xB4, "TAN "),
  (0xB5, "ASN "),
  (0xB6, "ACS "),
  (0xB7, "ATN "),
  (0xB8, "LN "),
  (0xB9, "EXP "),
  (0xBA, "INT "),
  (0xBB, "SQR "),
  (0xBC, "SGN "),
  (0xBD, "ABS "),
  (0xBE, "PEEK "),
  (0xBF, "IN "),
  (0xC0, "USR "),
  (0xC1, "STR$ "),
  (0xC2, "CHR$ "),
  (0xC3, "NOT "),
  (0xC4, "BIN "),
  (0xC5, " OR "),
  (0xC6, " AND "),
  (0xC7, "<="),
  (0xC8, ">="),
  (0xC9, "<>"),
  (0xCA, " LINE "),
  (0xCB, " THEN "),
  (0xCC, " TO "),
  (0xCD, " STEP "),
  (0xCE, " DEF FN "),
  (0xCF, " CAT "),
  (0xD0, " FORMAT "),
  (0xD1, " MOVE "),
  (0xD2, " ERASE "),
  (0xD3, " OPEN #"),
  (0xD4, " CLOSE #"),
  (0xD5, " MERGE "),
  (0xD6, " VERIFY "),
  (0xD7, " BEEP "),
  (0xD8, " CIRCLE "),
  (0xD9, " INK "),
  (0xDA, " PAPER "),
  (0xDB, " FLASH "),
  (0xDC, " BRIGHT "),
  (0xDD, " INVERSE "),
  (0xDE, " OVER "),
  (0xDF, " OUT "),
  (0xE0, " LPRINT "),
  (0xE1, " LLIST "),
  (0xE2, " STOP "),
  (0xE3, " READ "),
  (0xE4, " DATA "),
  (0xE5, " RESTORE "),
  (0xE6, " NEW "),
  (0xE7, " BORDER "),
  (0xE8, " CONTINUE "),
  (0xE9, " DIM "),
  (0xEA, " REM "),
  (0xEB, " FOR "),
  (0xEC, " GO TO "),
  (0xED, " GO SUB "),
  (0xEE, " INPUT "),
  (0xEF, " LOAD "),
  (0xF0, " LIST "),
  (0xF1, " LET "),
  (0xF2, " PAUSE "),
  (0xF3, " NEXT "),
  (0xF4, " POKE "),
  (0xF5, " PRINT "),
  (0xF6, " PLOT "),
  (0xF7, " RUN "),
  (0xF8, " SAVE "),
  (0xF9, " RANDOMIZE "),
  (0xFA, " IF "),
  (0xFB, " CLS "),
  (0xFC, " DRAW "),
  (0xFD, " CLEAR "),
  (0xFE, " RETURN "),
  (0xFF, " COPY ")
]

/-- Text-to-byte table, an association list keyed by string (Python keys are
str values; several are multi-character sequences in the source file, which a
single-character lookup can never hit), transcribed entry for entry. -/
def dict_unicode_to_spectrum : List (String × Nat) := [
  ("\t", 0x06),
  ("\n", 0x0D),
  ("\u201A\u00DC\u00EB", 0x5E),
  ("\u00AC\u00A3", 0x60),
  ("\u00AC\u00A9", 0x7F),
  ("\u00A0", 0x80),
  ("\u2002", 0x80),
  ("\u2003", 0x80),
  ("\u2800", 0x80),
  ("\u3000", 0x80),
  ("\u259D", 0x81),
  ("\u2598", 0x82),
  ("\u2580", 0x83),
  ("\u2597", 0x84),
  ("\u2590", 0x85),
  ("\u259A", 0x86),
  ("\u259C", 0x87),
  ("\u2596", 0x88),
  ("\u259E", 0x89),
  ("\u258C", 0x8A),
  ("\u259B", 0x8B),
  ("\u2584", 0x8C),
  ("\u259F", 0x8D),
  ("\u2599", 0x8E),
  ("\u2588", 0x8F),
  ("\u201A\u00ED\u2202", 0x90),
  ("\u201A\u00ED\u2211", 0x91),
  ("\u201A\u00ED\u220F", 0x92),
  ("\u201A\u00ED\u03C0", 0x93),
  ("\u201A\u00ED\u222B", 0x94),
  ("\u201A\u00ED\u00AA", 0x95),
  ("\u201A\u00ED\u00BA", 0x96),
  ("\u201A\u00ED\u03A9", 0x97),
  ("\u201A\u00ED\u00E6", 0x98),
  ("\u201A\u00ED\u00F8", 0x99),
  ("\u201A\u00EC\u00C4", 0x9A),
  ("\u201A\u00EC\u00C5", 0x9B),
  ("\u201A\u00EC\u00C7", 0x9C),
  ("\u201A\u00EC\u00C9", 0x9D),
  ("\u201A\u00EC\u00D1", 0x9E),
  ("\u201A\u00EC\u00D6", 0x9F),
  ("\u201A\u00EC\u00DC", 0xA0),
  ("\u201A\u00EC\u00E1", 0xA1),
  ("\u201A\u00EC\u00E0", 0xA2),
  ("\u201A\u00EC\u00E2", 0xA3),
  ("\u201A\u00EC\u00E4", 0xA4),
  ("\u201A\u00EC\u00EA", 0x90),
  ("\u201A\u00EC\u00EB", 0x91),
  ("\u201A\u00EC\u00ED", 0x92),
  ("\u201A\u00EC\u00EC", 0x93),
  ("\u201A\u00EC\u00EE", 0x94),
  ("\u201A\u00EC\u00EF", 0x95),
  ("\u201A\u00EC\u00F1", 0x96),
  ("\u201A\u00EC\u00F3", 0x97),
  ("\u201A\u00EC\u00F2", 0x98),
  ("\u201A\u00EC\u00F4", 0x99),
  ("\u201A\u00EC\u00F6", 0x9A),
  ("\u201A\u00EC\u00F5", 0x9B),
  ("\u201A\u00EC\u00FA", 0x9C),
  ("\u201A\u00EC\u00F9", 0x9D),
  ("\u201A\u00EC\u00FB", 0x9E),
  ("\u201A\u00EC\u00FC", 0x9F),
  ("\u201A\u00EC\u2020", 0xA0),
  ("\u201A\u00EC\u00B0", 0xA1),
  ("\u201A\u00EC\u00A2", 0xA2),
  ("\u201A\u00EC\u00A3", 0xA3),
  ("\u201A\u00EC\u00A7", 0xA4),
  ("\uF8FF\u00FC\u00D1\u221E", 0x90),
  ("\uF8FF\u00FC\u00D1\u00B1", 0x91),
  ("\uF8FF\u00FC\u00D1\u2264", 0x92),
  ("\uF8FF\u00FC\u00D1\u2265", 0x93),
  ("\uF8FF\u00FC\u00D1\u00A5", 0x94),
  ("\uF8FF\u00FC\u00D1\u00B5", 0x95),
  ("\uF8FF\u00FC\u00D1\u2202", 0x96),
  ("\uF8FF\u00FC\u00D1\u2211", 0x97),
  ("\uF8FF\u00FC\u00D1\u220F", 0x98),
  ("\uF8FF\u00FC\u00D1\u03C0", 0x99),
  ("\uF8FF\u00FC\u00D1\u222B", 0x9A),
  ("\uF8FF\u00FC\u00D1\u00AA", 0x9B),
  ("\uF8FF\u00FC\u00D1\u00BA", 0x9C),
  ("\uF8FF\u00FC\u00D1\u03A9", 0x9D),
  ("\uF8FF\u00FC\u00D1\u00E6", 0x9E),
  ("\uF8FF\u00FC\u00D1\u00F8", 0x9F),
  ("\uF8FF\u00FC\u00D6\u00C4", 0xA0),
  ("\uF8FF\u00FC\u00D6\u00C5", 0xA1),
  ("\uF8FF\u00FC\u00D6\u00C7", 0xA2),
  ("\uF8FF\u00FC\u00D6\u00C9", 0xA3),
  ("\uF8FF\u00FC\u00D6\u00D1", 0xA4),
  ("\uF8FF\u00FC\u00D6\u00EA", 0x90),
  ("\uF8FF\u00FC\u00D6\u00EB", 0x91),
  ("\uF8FF\u00FC\u00D6\u00ED", 0x92),
  ("\uF8FF\u00FC\u00D6\u00EC", 0x93),
  ("\uF8FF\u00FC\u00D6\u00EE", 0x94),
  ("\uF8FF\u00FC\u00D6\u00EF", 0x95),
  ("\uF8FF\u00FC\u00D6\u00F1", 0x96),
  ("\uF8FF\u00FC\u00D6\u00F3", 0x97),
  ("\uF8FF\u00FC\u00D6\u00F2", 0x98),
  ("\uF8FF\u00FC\u00D6\u00F4", 0x99),
  ("\uF8FF\u00FC\u00D6\u00F6", 0x9A),
  ("\uF8FF\u00FC\u00D6\u00F5", 0x9B),
  ("\uF8FF\u00FC\u00D6\u00FA", 0x9C),
  ("\uF8FF\u00FC\u00D6\u00F9", 0x9D),
  ("\uF8FF\u00FC\u00D6\u00FB", 0x9E),
  ("\uF8FF\u00FC\u00D6\u00FC", 0x9F),
  ("\uF8FF\u00FC\u00D6\u2020", 0xA0),
  ("\uF8FF\u00FC\u00D6\u00B0", 0xA1),
  ("\uF8FF\u00FC\u00D6\u00A2", 0xA2),
  ("\uF8FF\u00FC\u00D6\u00A3", 0xA3),
  ("\uF8FF\u00FC\u00D6\u00A7", 0xA4),
  ("\uF8FF\u00FC\u00D6\u221E", 0x90),
  ("\uF8FF\u00FC\u00D6\u00B1", 0x91),
  ("\uF8FF\u00FC\u00D6\u2264", 0x92),
  ("\uF8FF\u00FC\u00D6\u2265", 0x93),
  ("\uF8FF\u00FC\u00D6\u00A5", 0x94),
  ("\uF8FF\u00FC\u00D6\u00B5", 0x95),
  ("\uF8FF\u00FC\u00D6\u2202", 0x96),
  ("\uF8FF\u00FC\u00D6\u2211", 0x97),
  ("\uF8FF\u00FC\u00D6\u220F", 0x98),
  ("\uF8FF\u00FC\u00D6\u03C0", 0x99),
  ("\uF8FF\u00FC\u00D6\u222B", 0x9A),
  ("\uF8FF\u00FC\u00D6\u00AA", 0x9B),
  ("\uF8FF\u00FC\u00D6\u00BA", 0x9C),
  ("\uF8FF\u00FC\u00D6\u03A9", 0x9D),
  ("\uF8FF\u00FC\u00D6\u00E6", 0x9E),
  ("\uF8FF\u00FC\u00D6\u00F8", 0x9F),
  ("\uF8FF\u00FC\u00DC\u00C4", 0xA0),
  ("\uF8FF\u00FC\u00DC\u00C5", 0xA1),
  ("\uF8FF\u00FC\u00DC\u00C7", 0xA2),
  ("\uF8FF\u00FC\u00DC\u00C9", 0xA3),
  ("\uF8FF\u00FC\u00DC\u00D1", 0xA4)
]

/-- The 16K and 48K table: a copy of the 128K table with the two entries for
bytes 0xA3 and 0xA4 overwritten by the user-defined-graphics strings the
source assigns (again copied verbatim from the source file). -/
def dict_spectrum48_to_unicode : List (Nat × String) :=
  dict_spectrum128_to_unicode.map (fun p =>
    if p.1 = 0xA3 then (p.1, "\uF8FF\u00FC\u00DC\u00C9")
    else if p.1 = 0xA4 then (p.1, "\uF8FF\u00FC\u00DC\u00D1")
    else p)

/-- The HiSoft GEN assembler table: a copy of the 48K table from which the
source deletes the key `b"\t"` (byte 0x09) when present.  The filter removes
exactly that key, whether or not an entry for it exists. -/
def dict_spectrum_hisoft_gen_asm_to_unicode : List (Nat × String) :=
  dict_spectrum48_to_unicode.filter (fun p => p.1 ≠ 0x09)

/-- The HiSoft GEN assembler text-to-byte table: a copy of the text-to-byte
table from which the source deletes the key for the tab character. -/
def dict_unicode_to_spectrum_hisoft_gen_asm : List (String × Nat) :=
  dict_unicode_to_spectrum.filter (fun p => p.1 ≠ "\t")

/-- The Spectrum file header record (tape variant and +3 BASIC variant). -/
structure Spectrum_File_Header where
  header_type : Nat
  file_type : Nat
  file_name : String
  file_length : Nat
  basic_automatic_start_line : Nat
  basic_prog_length : Nat
  code_load_address : Nat
  array_name : String
deriving DecidableEq, Repr

/-- `Spectrum_File_Header.TAPE_HEADER_TYPE`. -/
def Spectrum_File_Header.TAPE_HEADER_TYPE : Nat := 0

/-- `Spectrum_File_Header.PLUS3_BASIC_HEADER_TYPE`. -/
def Spectrum_File_Header.PLUS3_BASIC_HEADER_TYPE : Nat := 1

/-- `Spectrum_File_Header.header_length`: 17 for the tape variant, 8 for the
+3 BASIC variant (other values fail an assertion in the source; all call
sites here use 0 or 1). -/
def Spectrum_File_Header.header_length (header_type : Nat) : Nat :=
  if header_type = 0 then 17 else if header_type = 1 then 8 else 0

/-- `Spectrum_File_Header.__init__`: zero all fields, keep the given header
type, file name and file length (the source asserts the header type is 0 or
1 and the name is at most 10 characters; all call sites here satisfy that). -/
def Spectrum_File_Header.init (header_type : Nat) (file_name : String)
    (file_length : Nat) : Spectrum_File_Header :=
  { header_type := header_type, file_type := 0, file_name := file_name,
    file_length := file_length, basic_automatic_start_line := 0,
    basic_prog_length := 0, code_load_address := 0, array_name := "\x00" }

/-- `Spectrum_File_Header.is_zeroed`. -/
def Spectrum_File_Header.is_zeroed (h : Spectrum_File_Header) : Bool :=
  h.file_type == 0 && h.file_length == 0 && h.basic_automatic_start_line == 0 &&
  h.basic_prog_length == 0 && h.code_load_address == 0 && h.array_name == "\x00"

/-- `Spectrum_File_Header.set_type_basic_program` (the source asserts the
start line is 0x8000 or between 1 and 9999; theorems below carry that as a
hypothesis). -/
def Spectrum_File_Header.set_type_basic_program (h : Spectrum_File_Header)
    (start_line offset_to_prog : Nat) : Spectrum_File_Header :=
  { h with file_type := 0, basic_automatic_start_line := start_line,
           basic_prog_length := offset_to_prog }

/-- `Spectrum_File_Header.set_type_numeric_array` (the source asserts the
name is a single alphabetic character). -/
def Spectrum_File_Header.set_type_numeric_array (h : Spectrum_File_Header)
    (name : String) : Spectrum_File_Header :=
  { h with file_type := 1, array_name := name }

/-- `Spectrum_File_Header.set_type_char_array` (the source asserts the name
is a single alphabetic character). -/
def Spectrum_File_Header.set_type_char_array (h : Spectrum_File_Header)
    (name : String) : Spectrum_File_Header :=
  { h with file_type := 2, array_name := name }

/-- `Spectrum_File_Header.set_type_code_or_screen`. -/
def Spectrum_File_Header.set_type_code_or_screen (h : Spectrum_File_Header)
    (load_address : Nat) : Spectrum_File_Header :=
  { h with file_type := 3, code_load_address := load_address }

/-- Translation of one character when encoding a file name or array name:
`dict_unicode_to_spectrum.get(char, char.encode(...))`, where `char` is a
1-character string. -/
def Spectrum_File_Header.encode_name_char (c : Char) : List Nat :=
  match List.lookup (String.singleton c) dict_unicode_to_spectrum with
  | some b => [b]
  | none => charEncodeUtf8 c

/-- `Spectrum_File_Header.encode`: emits the subtype byte, then (tape variant
only) the translated 10-character name, then the file length, then the
subtype fields, pads to the fixed length and asserts the final length. -/
def Spectrum_File_Header.encode (h : Spectrum_File_Header) :
    Except PyErr (List Nat) := do
  let body ←
    if h.header_type = 0 ∨ h.is_zeroed = false then do
      let tb ← pack_le8 h.file_type
      let nameB :=
        if h.header_type = 0 then
          concat_map Spectrum_File_Header.encode_name_char
            (ljust_str (h.file_name.trim.take 10) 10).toList
        else []
      let lb ← pack_le16 h.file_length
      let extra ←
        if h.file_type = 0 then do
          let s ← pack_le16 h.basic_automatic_start_line
          let p ← pack_le16 h.basic_prog_length
          pure (s ++ p)
        else if h.file_type = 1 ∨ h.file_type = 2 then
          match h.array_name.toList with
          | [] => Except.error PyErr.indexError
          | c :: _ => pure ([0] ++ Spectrum_File_Header.encode_name_char c ++ [0, 0])
        else if h.file_type = 3 then do
          let a ← pack_le16 h.code_load_address
          pure (a ++ (if h.header_type = 0 then [0x00, 0x80] else [0x00, 0x00]))
        else pure []
      pure (tb ++ nameB ++ lb ++ extra)
    else pure []
  let out := ljust body (Spectrum_File_Header.header_length h.header_type) 0
  if out.length = Spectrum_File_Header.header_length h.header_type then pure out
  else Except.error PyErr.assertionError

/-- The file-name translation loop of `Spectrum_File_Header.decode`: the loop
variable is an int (iterating a bytes value), so the dictionary membership
test is always false and the fallback `byte.decode(...)` raises on the first
iteration of any non-empty name field. -/
def Spectrum_File_Header.decode_file_name :
    List Nat → String → Except PyErr String
  | [], acc => .ok acc
  | b :: rest, acc =>
    if py_int_in_bytes_dict b then
      Spectrum_File_Header.decode_file_name rest
        (acc ++ (lookupByte dict_spectrum48_to_unicode b).getD "")
    else
      match py_int_decode b with
      | .error e => .error e
      | .ok s => Spectrum_File_Header.decode_file_name rest (acc ++ s)

/-- The part of `Spectrum_File_Header.decode` after the optional unwrapping
of the raw tape form: length check, zero check, then field parsing. -/
def Spectrum_File_Header.decode_body (header_type : Nat)
    (self0 : Spectrum_File_Header) (bs : List Nat) :
    Except PyErr (Spectrum_File_Header × Bool) :=
  if bs.length ≠ Spectrum_File_Header.header_length header_type then
    .ok (self0, false)
  else if header_type = 0 ∨
          bs ≠ List.replicate (Spectrum_File_Header.header_length header_type) 0 then
    let st1 := { self0 with file_type := bs.getD 0 0 }
    match (if header_type = 0 then
             (Spectrum_File_Header.decode_file_name ((bs.drop 1).take 10) "").map
               (fun fn => ({ st1 with file_name := fn.trim }, bs.drop 10))
           else .ok (st1, bs)) with
    | .error e => .error e
    | .ok (st2, bs2) =>
      let st3 := { st2 with file_length := le16 (bs2.getD 1 0) (bs2.getD 2 0) }
      if st3.file_type = 0 then
        let st4 := { st3 with
          basic_automatic_start_line := le16 (bs2.getD 3 0) (bs2.getD 4 0),
          basic_prog_length := le16 (bs2.getD 5 0) (bs2.getD 6 0) }
        .ok (st4, decide (st4.basic_automatic_start_line = 0x8000 ∨
               (1 ≤ st4.basic_automatic_start_line ∧
                st4.basic_automatic_start_line ≤ 9999)))
      else if st3.file_type = 1 ∨ st3.file_type = 2 then
        match py_int_decode (bs2.getD 4 0) with
        | .error e => .error e
        | .ok fallback =>
          let an := py_dict_get_int_key dict_spectrum128_to_unicode
                      (bs2.getD 4 0) fallback
          let st4 := { st3 with array_name := an }
          .ok (st4, an.length == 1 &&
                 (match an.toList with | [] => false | c :: _ => c.isAlpha))
      else if st3.file_type = 3 then
        .ok ({ st3 with code_load_address := le16 (bs2.getD 3 0) (bs2.getD 4 0) },
             true)
      else .ok (st3, false)
  else .ok (self0, true)

/-- `Spectrum_File_Header.decode`: zeroes the object, optionally unwraps the
raw tape form (19 bytes: leading marker, 17 header bytes, one xor check
byte), then parses.  The marker comparison compares an int with a bytes
constant, which in Python is never equal. -/
def Spectrum_File_Header.decode (header_type : Nat) (bs : List Nat) :
    Except PyErr (Spectrum_File_Header × Bool) :=
  let self0 := Spectrum_File_Header.init header_type "" 0
  if header_type = 0 ∧
     bs.length = Spectrum_File_Header.header_length header_type + 2 then
    if py_ne_int_bytes (bs.getD 0 0) SINCLAIR_BASIC_TAPE_HEADER_MARKER then
      .ok (self0, false)
    else
      let header_checkxor := bs.getD (bs.length - 1) 0
      let bs2 := (bs.drop 1).dropLast
      let checkxor := bs2.foldl Nat.xor 0
      if checkxor ≠ header_checkxor then .ok (self0, false)
      else Spectrum_File_Header.decode_body header_type self0 bs2
  else Spectrum_File_Header.decode_body header_type self0 bs

/-- The 128-byte +3DOS file header record. -/
structure Plus3Dos_File_Header where
  signature : List Nat
  issue_number : Nat
  version_number : Nat
  file_length_with_header : Nat
  basic_header : Spectrum_File_Header
deriving DecidableEq, Repr

/-- `Plus3Dos_File_Header.HEADER_SIGNATURE = b"PLUS3DOS" + SOFT_EOF_BYTE`. -/
def Plus3Dos_File_Header.HEADER_SIGNATURE : List Nat :=
  [0x50, 0x4C, 0x55, 0x53, 0x33, 0x44, 0x4F, 0x53] ++ SOFT_EOF_BYTE

/-- `Plus3Dos_File_Header.HEADER_LENGTH = 128`. -/
def Plus3Dos_File_Header.HEADER_LENGTH : Nat := 128

/-- `Plus3Dos_File_Header.__init__`. -/
def Plus3Dos_File_Header.init (file_length : Nat) : Plus3Dos_File_Header :=
  { signature := Plus3Dos_File_Header.HEADER_SIGNATURE, issue_number := 1,
    version_number := 0, file_length_with_header := 128 + file_length,
    basic_header := Spectrum_File_Header.init 1 "" 0 }

/-- `Plus3Dos_File_Header.set_file_length`. -/
def Plus3Dos_File_Header.set_file_length (h : Plus3Dos_File_Header)
    (file_length : Nat) : Plus3Dos_File_Header :=
  let h2 := { h with file_length_with_header := 128 + file_length }
  if h2.basic_header.is_zeroed then h2
  else { h2 with basic_header := { h2.basic_header with file_length := file_length } }

/-- `Plus3Dos_File_Header.encode`: signature, issue, version, 32-bit total
length, the encoded 8-byte sub-header, zero padding to 127 bytes, then the
modulo-256 sum of those 127 bytes as the final byte; asserts the total. -/
def Plus3Dos_File_Header.encode (h : Plus3Dos_File_Header) :
    Except PyErr (List Nat) := do
  let b1 ← pack_le8 h.issue_number
  let b2 ← pack_le8 h.version_number
  let b4 ← pack_le32 h.file_length_with_header
  let sub ← Spectrum_File_Header.encode h.basic_header
  let body := ljust (h.signature ++ b1 ++ b2 ++ b4 ++ sub) 127 0
  let full := body ++ [body.sum % 256]
  if full.length = 128 then pure full else Except.error PyErr.assertionError

/-- `Plus3Dos_File_Header.decode`: rejects wrong length, then a signature
mismatch, then a checksum mismatch, each with a false result and unchanged
state; then decodes the embedded sub-header (whose failure also yields false)
and only then overwrites the object. -/
def Plus3Dos_File_Header.decode (self : Plus3Dos_File_Header) (bs : List Nat) :
    Except PyErr (Plus3Dos_File_Header × Bool) :=
  if bs.length ≠ Plus3Dos_File_Header.HEADER_LENGTH then .ok (self, false)
  else if self.signature.length ≠ 9 then .error .assertionError
  else if bs.take self.signature.length ≠ self.signature then .ok (self, false)
  else if bs.dropLast.sum % 256 ≠ bs.getD (bs.length - 1) 0 then .ok (self, false)
  else
    match Spectrum_File_Header.decode 1 ((bs.drop 15).take 8) with
    | .error e => .error e
    | .ok (bh, ok) =>
      if ok = false then .ok (self, false)
      else
        .ok ({ Plus3Dos_File_Header.init 0 with
               issue_number := bs.getD 9 0,
               version_number := bs.getD 10 0,
               file_length_with_header :=
                 le32 (bs.getD 11 0) (bs.getD 12 0) (bs.getD 13 0) (bs.getD 14 0),
               basic_header := bh }, true)

/-- Flip bit k of a byte value. -/
def flipBit (b k : Nat) : Nat := if b.testBit k then b - 2 ^ k else b + 2 ^ k

/-- Inner byte loop of the assembler listing decoder: reads single bytes
until the carriage return, end of data, exhausted length budget or (when
enabled) the soft-EOF sentinel.  Returns `none` when the whole stream ends
here and `some` with the next position and remaining budget when the line
ended; the accumulated output text is returned either way. -/
def asm_inner : Nat → List Nat → Nat → Int → Bool → String →
    Except PyErr (Option (Nat × Int) × String)
  | 0, _, pos, maxLen, _, out => .ok (some (pos, maxLen), out)
  | fuel + 1, file, pos, maxLen, stop, out =>
    if maxLen ≤ 0 then .ok (some (pos, maxLen), out)
    else
      let b := (file.drop pos).take 1
      let maxLen2 := maxLen - 1
      if b.length < 1 ∨ (stop = true ∧ b = SOFT_EOF_BYTE) then .ok (none, out)
      else if b = [0x0D] then .ok (some (pos + 1, maxLen2), out)
      else
        match lookupByte dict_spectrum_hisoft_gen_asm_to_unicode (b.getD 0 0) with
        | some s => asm_inner fuel file (pos + 1) maxLen2 stop (out ++ s)
        | none =>
          match bytes1_decode_utf8 (b.getD 0 0) with
          | .error e => .error e
          | .ok s => asm_inner fuel file (pos + 1) maxLen2 stop (out ++ s)

/-- Outer line loop of the assembler listing decoder.  The soft-EOF test on
the two line-number bytes compares ints with a bytes constant and therefore
never fires; the lead-length test consumes and discards the first two-byte
field when its value equals the remaining budget before the field was read. -/
def asm_loop : Nat → List Nat → Nat → Int → Bool → Bool → Bool → String →
    Except PyErr String
  | 0, _, _, _, _, _, _, out => .ok out
  | fuel + 1, file, pos, maxLen, waiting, incl, stop, out =>
    if maxLen ≤ 2 then .ok out
    else
      let lnb := (file.drop pos).take 2
      let maxLen2 := maxLen - 2
      if lnb.length < 2 ∨ (stop = true ∧
           (py_eq_int_bytes (lnb.getD 0 0) SOFT_EOF_BYTE = true ∨
            py_eq_int_bytes (lnb.getD 1 0) SOFT_EOF_BYTE = true)) then .ok out
      else
        let line_number := le16 (lnb.getD 0 0) (lnb.getD 1 0)
        if waiting = true ∧ (line_number : Int) = maxLen2 + 2 then
          asm_loop fuel file (pos + 2) maxLen2 false incl stop out
        else
          let out2 := if incl then out ++ rjust 6 (toString line_number) ++ "  "
                      else out
          match asm_inner (file.length + 2) file (pos + 2) maxLen2 stop out2 with
          | .error e => .error e
          | .ok (none, out3) => .ok out3
          | .ok (some (pos2, maxLen3), out3) =>
            asm_loop fuel file pos2 maxLen3 false incl stop (out3 ++ "\n")

/-- `spectrum_hisoft_gen_asm_to_unicode`, on the whole input byte string:
measures the file length, strips a valid leading +3DOS header when present
(taking the length budget from it and force-disabling soft-EOF detection),
then runs the line loop. -/
def spectrum_hisoft_gen_asm_to_unicode (file : List Nat)
    (include_line_numbers stop_at_soft_eof : Bool) : Except PyErr String :=
  let hb := file.take 128
  if hb.length = 128 then
    match Plus3Dos_File_Header.decode (Plus3Dos_File_Header.init 0) hb with
    | .error e => .error e
    | .ok (h, true) =>
      asm_loop (file.length + 2) file 128
        ((h.file_length_with_header : Int) - 128) true include_line_numbers
        false ""
    | .ok (_, false) =>
      asm_loop (file.length + 2) file 0 (file.length : Int) true
        include_line_numbers stop_at_soft_eof ""
  else
    asm_loop (file.length + 2) file 0 (file.length : Int) true
      include_line_numbers stop_at_soft_eof ""

/-- Inner byte loop of the Sinclair BASIC listing decoder: like the
assembler loop, but also skips the 5-byte numeric literal after the 0x0E
marker and takes the active translation table as an argument. -/
def bas_inner : Nat → List Nat → Nat → Int → Bool → List (Nat × String) →
    String → Except PyErr (Option (Nat × Int) × String)
  | 0, _, pos, maxLen, _, _, out => .ok (some (pos, maxLen), out)
  | fuel + 1, file, pos, maxLen, stop, d, out =>
    if maxLen ≤ 0 then .ok (some (pos, maxLen), out)
    else
      let b := (file.drop pos).take 1
      let maxLen2 := maxLen - 1
      if b.length < 1 ∨ (stop = true ∧ b = SOFT_EOF_BYTE) then .ok (none, out)
      else if b = SINCLAIR_BASIC_NUMBER_MARKER then
        bas_inner fuel file (pos + 1 + SINCLAIR_BASIC_NUMBER_LENGTH)
          (maxLen2 - (SINCLAIR_BASIC_NUMBER_LENGTH : Int)) stop d out
      else if b = [0x0D] then .ok (some (pos + 1, maxLen2), out)
      else
        match lookupByte d (b.getD 0 0) with
        | some s => bas_inner fuel file (pos + 1) maxLen2 stop d (out ++ s)
        | none =>
          match bytes1_decode_utf8 (b.getD 0 0) with
          | .error e => .error e
          | .ok s => bas_inner fuel file (pos + 1) maxLen2 stop d (out ++ s)

/-- Outer line loop of the Sinclair BASIC listing decoder: reads the 4-byte
line header (big-endian line number, unused little-endian length), stops on
short reads, on the variables region when the program length is unknown, and
on exhausted budget; the soft-EOF test on the header bytes compares ints
with a bytes constant and never fires. -/
def bas_loop : Nat → List Nat → Nat → Int → Bool → Bool →
    List (Nat × String) → String → Except PyErr String
  | 0, _, _, _, _, _, _, out => .ok out
  | fuel + 1, file, pos, maxLen, progKnown, stop, d, out =>
    if maxLen ≤ 2 then .ok out
    else
      let chunk := (file.drop pos).take 4
      let maxLen2 := maxLen - 4
      if chunk.length < 4 ∨ (stop = true ∧
           (py_eq_int_bytes (chunk.getD 0 0) SOFT_EOF_BYTE = true ∨
            py_eq_int_bytes (chunk.getD 1 0) SOFT_EOF_BYTE = true)) then .ok out
      else
        let line_number := be16 (chunk.getD 0 0) (chunk.getD 1 0)
        if progKnown = false ∧ SINCLAIR_BASIC_LINE_IS_VARIABLE ≤ line_number then
          .ok out
        else
          let out2 := out ++ rjust 4 (toString line_number) ++ " "
          match bas_inner (file.length + 2) file (pos + 4) maxLen2 stop d out2 with
          | .error e => .error e
          | .ok (none, out3) => .ok out3
          | .ok (some (pos2, maxLen3), out3) =>
            bas_loop fuel file pos2 maxLen3 progKnown stop d (out3 ++ "\n")

/-- `spectrum_sinclair_bas_to_unicode` on the whole input byte string, with
no external tape-header file (the optional tape-header input of the source
is not exercised by the claims; it is passed as None).  A valid leading
+3DOS header supplies the length budget, possibly narrowed by the embedded
program length, and force-disables soft-EOF detection; otherwise the budget
is the 32 MiB default. -/
def spectrum_sinclair_bas_to_unicode (file : List Nat)
    (use_spectrum48k_tokens stop_at_soft_eof : Bool) : Except PyErr String :=
  let d := if use_spectrum48k_tokens then dict_spectrum48_to_unicode
           else dict_spectrum128_to_unicode
  let hb := file.take 128
  if hb.length = 128 then
    match Plus3Dos_File_Header.decode (Plus3Dos_File_Header.init 0) hb with
    | .error e => .error e
    | .ok (h, true) =>
      let maxLen : Int := (h.file_length_with_header : Int) - 128
      if h.basic_header.is_zeroed = false ∧ h.basic_header.file_type = 0 then
        bas_loop (file.length + 2) file 128
          (min maxLen (h.basic_header.basic_prog_length : Int)) true false d ""
      else
        bas_loop (file.length + 2) file 128 maxLen false false d ""
    | .ok (_, false) =>
      bas_loop (file.length + 2) file 0 (32 * 1024 * 1024) false
        stop_at_soft_eof d ""
  else
    bas_loop (file.length + 2) file 0 (32 * 1024 * 1024) false
      stop_at_soft_eof d ""

/-- A word character for the purpose of the regex word boundary in the
line-number pattern. -/
def is_word_char (c : Char) : Bool := c.isAlphanum || c == '_'

/-- Greedy consumption of at most two spaces, as the regex `[ ]{0,2}`. -/
def drop_up_to_2_spaces : List Char → List Char
  | ' ' :: ' ' :: rest => rest
  | ' ' :: rest => rest
  | cs => cs

/-- Numeric value of a digit string, as Python `int(...)`. -/
def nat_of_digits (cs : List Char) : Nat :=
  cs.foldl (fun a c => a * 10 + (c.toNat - 48)) 0

/-- The line-number pattern of the text-to-assembler converter, the regex
`A[ ]*([0-9]+)b[ ]{0,2}(.*)Z` (word boundary after the digits): returns the
parsed number and the rest of the line, or nothing when the line carries no
number prefix.  Backtracking to fewer digits can never satisfy the word
boundary, since the boundary would then fall between two digits. -/
def regex_line_number_match (t : String) : Option (Nat × String) :=
  let afterSpaces := t.toList.dropWhile (fun c => c == ' ')
  let digits := afterSpaces.takeWhile Char.isDigit
  let rest := afterSpaces.drop digits.length
  if digits.isEmpty then none
  else
    match rest with
    | [] => some (nat_of_digits digits, "")
    | c :: _ =>
      if is_word_char c then none
      else some (nat_of_digits digits, String.mk (drop_up_to_2_spaces rest))

/-- The effective line number and remaining text for one input line: an
explicit prefix overrides the running counter, otherwise the counter value
is used and the whole line is the text. -/
def u2asm_effective (cur : Nat) (t : String) : Nat × String :=
  match regex_line_number_match t with
  | some (n, rest) => (n, rest)
  | none => (cur, t)

/-- Per-character translation of line text in the text-to-assembler
direction: table lookup with utf-8 fallback. -/
def u2asm_encode_text (text : String) : List Nat :=
  concat_map (fun c =>
    match List.lookup (String.singleton c) dict_unicode_to_spectrum_hisoft_gen_asm with
    | some b => [b]
    | none => charEncodeUtf8 c) text.toList

/-- One iteration of the text-to-assembler loop body: strips trailing
whitespace, resolves the line number, packs it as an unsigned 16-bit
little-endian field (raising struct.error when it does not fit), translates
the text and appends the carriage return; returns the incremented counter
and the extended output. -/
def u2asm_process_line (cur : Nat) (out : List Nat) (line : String) :
    Except PyErr (Nat × List Nat) := do
  let t := py_rstrip line
  let (n, text) := u2asm_effective cur t
  let lnb ← pack_le16 n
  pure (n + 10, out ++ lnb ++ u2asm_encode_text text ++ [0x0D])

/-- The text-to-assembler line loop: stops at end of input (an empty
readline result), otherwise processes each line in order. -/
def u2asm_loop : List String → Nat → List Nat → Except PyErr (List Nat)
  | [], _, out => .ok out
  | line :: rest, cur, out =>
    if line.length < 1 then .ok out
    else
      match u2asm_process_line cur out line with
      | .error e => .error e
      | .ok (cur2, out2) => u2asm_loop rest cur2 out2

/-- `unicode_to_spectrum_hisoft_gen_asm` on a list of input text lines (the
strings readline would yield), with no tape-header artifact (that optional
output of the source is not exercised by the claims).  With the header flag
the 128-byte placeholder is written first and replaced at the end by the
re-encoded header carrying the final length (minus a trailing soft-EOF). -/
def unicode_to_spectrum_hisoft_gen_asm (lines : List String)
    (prepend_plus3dos_header append_soft_eof : Bool) :
    Except PyErr (List Nat) := do
  let pre := if prepend_plus3dos_header then List.replicate 128 0 else []
  let body ← u2asm_loop lines 10 []
  let out := pre ++ body ++ (if append_soft_eof then SOFT_EOF_BYTE else [])
  if prepend_plus3dos_header then
    let file_length_with_header := out.length - (if append_soft_eof then 1 else 0)
    let h0 := Plus3Dos_File_Header.init 0
    let h1 := { h0 with basic_header :=
                  Spectrum_File_Header.set_type_code_or_screen h0.basic_header 16384 }
    let h2 := Plus3Dos_File_Header.set_file_length h1 (file_length_with_header - 128)
    let hb ← Plus3Dos_File_Header.encode h2
    pure (hb ++ out.drop 128)
  else pure out

/-! Helper lemmas for the checksum analysis. -/

theorem except_bind_ok {α β : Type} {e : Except PyErr α} {f : α → Except PyErr β}
    {b : β} (h : (e >>= f) = .ok b) : ∃ a, e = .ok a ∧ f a = .ok b := by
  cases e with
  | error e => simp [Bind.bind, Except.bind] at h
  | ok a => exact ⟨a, rfl, by simpa [Bind.bind, Except.bind] using h⟩

theorem sum_set_add (l : List Nat) (i v : Nat) (h : i < l.length) :
    (l.set i v).sum + l[i] = l.sum + v := by
  have h1 := List.sum_set l i v
  rw [if_pos h] at h1
  have h2 := List.sum_take_add_sum_drop l i
  have h3 : l.drop i = l[i] :: l.drop (i + 1) := List.drop_eq_getElem_cons h
  rw [h3, List.sum_cons] at h2
  omega

theorem flipBit_ne (b k : Nat) : flipBit b k ≠ b := by
  have hk : 0 < 2 ^ k := Nat.pos_pow_of_pos k (by norm_num)
  rw [flipBit]
  split
  · next hb =>
    have hge := Nat.testBit_implies_ge hb
    omega
  · omega

/-- Rejection lemma for the +3DOS decoder: a 128-byte record with a broken
signature or a broken checksum is rejected with unchanged state. -/
theorem plus3_decode_reject (self : Plus3Dos_File_Header) (bs : List Nat)
    (hsig : self.signature = Plus3Dos_File_Header.HEADER_SIGNATURE)
    (hlen : bs.length = 128)
    (hbad : bs.take 9 ≠ Plus3Dos_File_Header.HEADER_SIGNATURE ∨
            bs.getD 127 0 ≠ (bs.take 127).sum % 256) :
    Plus3Dos_File_Header.decode self bs = .ok (self, false) := by
  have hsl : self.signature.length = 9 := by rw [hsig]; rfl
  have hdl : bs.dropLast = bs.take 127 := by
    rw [List.dropLast_eq_take, hlen]
  unfold Plus3Dos_File_Header.decode
  rw [if_neg (by simp [hlen, Plus3Dos_File_Header.HEADER_LENGTH])]
  rw [if_neg (by simp [hsl])]
  rcases hbad with hbad | hbad
  · rw [if_pos (by rw [hsl, hsig]; exact hbad)]
  · by_cases hsig9 : bs.take 9 = Plus3Dos_File_Header.HEADER_SIGNATURE
    · rw [if_neg (by rw [hsl, hsig]; simpa using hsig9)]
      rw [if_pos (by
        rw [hdl, hlen]
        show (bs.take 127).sum % 256 ≠ bs.getD 127 0
        omega)]
    · rw [if_pos (by rw [hsl, hsig]; exact hsig9)]

/-- C3: `Plus3Dos_File_Header.encode` emits 128 bytes whose final byte is the
modulo-256 sum of the first 127; `decode` rejects any 128-byte input with a
broken signature or checksum; flipping one bit of any of the first 127 bytes
of a valid record makes decode reject it. -/
theorem claim_C3_checksum :
    (∀ (h : Plus3Dos_File_Header) (out : List Nat),
        Plus3Dos_File_Header.encode h = .ok out →
        out.length = 128 ∧ out.getD 127 0 = (out.take 127).sum % 256)
    ∧ (∀ (self : Plus3Dos_File_Header) (bs : List Nat),
        self.signature = Plus3Dos_File_Header.HEADER_SIGNATURE →
        bs.length = 128 →
        (bs.take 9 ≠ Plus3Dos_File_Header.HEADER_SIGNATURE ∨
         bs.getD 127 0 ≠ (bs.take 127).sum % 256) →
        Plus3Dos_File_Header.decode self bs = .ok (self, false))
    ∧ (∀ (self : Plus3Dos_File_Header) (bs : List Nat) (i k : Nat),
        self.signature = Plus3Dos_File_Header.HEADER_SIGNATURE →
        bs.length = 128 →
        bs.take 9 = Plus3Dos_File_Header.HEADER_SIGNATURE →
        bs.getD 127 0 = (bs.take 127).sum % 256 →
        i ≤ 126 → k < 8 →
        Plus3Dos_File_Header.decode self (bs.set i (flipBit (bs.getD i 0) k)) =
          .ok (self, false)) := by
  refine ⟨?_, fun self bs hs hl hb => plus3_decode_reject self bs hs hl hb, ?_⟩
  · intro h out he
    unfold Plus3Dos_File_Header.encode at he
    obtain ⟨b1, h1, he⟩ := except_bind_ok he
    obtain ⟨b2, h2, he⟩ := except_bind_ok he
    obtain ⟨b4, h4, he⟩ := except_bind_ok he
    obtain ⟨sub, hsub, he⟩ := except_bind_ok he
    set body := ljust (h.signature ++ b1 ++ b2 ++ b4 ++ sub) 127 0 with hbody
    by_cases hfl : (body ++ [body.sum % 256]).length = 128
    · rw [if_pos hfl] at he
      have hout : out = body ++ [body.sum % 256] := by
        simpa [Pure.pure, Except.pure] using he.symm
      have hbl : body.length = 127 := by
        simpa using hfl
      subst hout
      refine ⟨hfl, ?_⟩
      have ht : (body ++ [body.sum % 256]).take 127 = body := by
        rw [← hbl]
        exact List.take_left body [body.sum % 256]
      rw [ht]
      rw [List.getD_eq_getElem?_getD]
      rw [List.getElem?_append_right (by omega)]
      simp [hbl]
    · rw [if_neg hfl] at he
      exact absurd he (by simp)
  · intro self bs i k hsig hlen hsig9 hsum hi hk
    have hk2 : 0 < 2 ^ k := Nat.pos_pow_of_pos k (by norm_num)
    have hk128 : 2 ^ k ≤ 128 := by
      calc 2 ^ k ≤ 2 ^ 7 := Nat.pow_le_pow_right (by norm_num) (by omega)
      _ = 128 := by norm_num
    have hi128 : i < 128 := by omega
    have hib : i < bs.length := by omega
    set v := flipBit (bs.getD i 0) k with hv
    have hvne : v ≠ bs[i] := by
      rw [hv, List.getD_eq_getElem bs 0 hib]
      exact flipBit_ne bs[i] k
    have hlen2 : (bs.set i v).length = 128 := by simp [hlen]
    rcases Nat.lt_or_ge i 9 with hlt | hge
    · -- bit in the signature: the prefix changes
      refine plus3_decode_reject self (bs.set i v) hsig hlen2 (Or.inl ?_)
      rw [List.set_take]
      intro hcon
      have h9 : i < (bs.take 9).length := by simp [hlen]; omega
      have := congrArg (fun l => l.getD i 0) hcon
      simp only at this
      rw [List.getD_eq_getElem _ _ (by simpa [List.length_set] using h9)] at this
      rw [List.getElem_set_self] at this
      rw [← hsig9] at this
      rw [List.getD_eq_getElem _ _ h9] at this
      rw [List.getElem_take] at this
      exact hvne this
    · -- bit in the body: the checksum changes
      refine plus3_decode_reject self (bs.set i v) hsig hlen2 (Or.inr ?_)
      have hpre : (bs.set i v).take 9 = bs.take 9 := by
        rw [List.set_take]
        exact List.set_eq_of_length_le (by simp [hlen]; omega)
      have hgd : (bs.set i v).getD 127 0 = bs.getD 127 0 := by
        rw [List.getD_eq_getElem?_getD, List.getD_eq_getElem?_getD]
        rw [List.getElem?_set_ne (by omega)]
      have htake : (bs.set i v).take 127 = (bs.take 127).set i v := List.set_take
      have hilen : i < (bs.take 127).length := by simp [hlen]; omega
      have hsum2 := sum_set_add (bs.take 127) i v hilen
      have hbi : (bs.take 127)[i] = bs[i] := List.getElem_take bs
      have hble : bs[i] ≤ (bs.take 127).sum := by
        refine List.single_le_sum (by intro x _; omega) _ ?_
        rw [← hbi]
        exact List.getElem_mem hilen
      rw [hgd, htake, hsum]
      rw [hbi] at hsum2
      have hvc : (2 ^ k ≤ bs[i] ∧ v = bs[i] - 2 ^ k) ∨ v = bs[i] + 2 ^ k := by
        rw [hv, flipBit, List.getD_eq_getElem bs 0 hib]
        by_cases hb : bs[i].testBit k
        · exact Or.inl ⟨Nat.testBit_implies_ge hb, by rw [if_pos hb]⟩
        · exact Or.inr (by rw [if_neg hb])
      rcases hvc with ⟨hle, hveq⟩ | hveq
      · omega
      · omega

def p3zero_bytes : List Nat :=
  (Plus3Dos_File_Header.encode (Plus3Dos_File_Header.init 0)).toOption.getD []

theorem claim_C3_checksum_witness :
    ((Plus3Dos_File_Header.encode (Plus3Dos_File_Header.init 0)).toOption.getD []).length = 128
    ∧ Plus3Dos_File_Header.decode (Plus3Dos_File_Header.init 0) (List.replicate 128 0) =
        .ok (Plus3Dos_File_Header.init 0, false)
    ∧ Plus3Dos_File_Header.decode (Plus3Dos_File_Header.init 0)
        (p3zero_bytes.set 9 (flipBit (p3zero_bytes.getD 9 0) 0)) =
        .ok (Plus3Dos_File_Header.init 0, false) := by
  refine ⟨?_, ?_, ?_⟩
  · exact (claim_C3_checksum.1 (Plus3Dos_File_Header.init 0) p3zero_bytes rfl).1
  · exact claim_C3_checksum.2.1 _ _ rfl (by decide) (Or.inl (by decide))
  · exact claim_C3_checksum.2.2 _ p3zero_bytes 9 0 rfl (by decide) (by decide)
      (by decide) (by decide) (by decide)

/-- The file-name loop raises on the first byte of any non-empty name
field. -/
theorem decode_file_name_ne_nil (l : List Nat) (acc : String) (h : l ≠ []) :
    Spectrum_File_Header.decode_file_name l acc = .error .attributeError := by
  cases l with
  | nil => exact absurd rfl h
  | cons b rest =>
    simp [Spectrum_File_Header.decode_file_name, py_int_in_bytes_dict, py_int_decode]

/-- Any 17-byte unwrapped tape header raises AttributeError in the file-name
loop. -/
theorem sfh_decode_len17_raises (bs : List Nat) (h : bs.length = 17) :
    Spectrum_File_Header.decode 0 bs = .error .attributeError := by
  have h10 : (bs.drop 1).take 10 ≠ [] := by
    have hl : ((bs.drop 1).take 10).length = 10 := by simp [h]
    intro hc
    rw [hc] at hl
    simp at hl
  unfold Spectrum_File_Header.decode
  rw [if_neg (by simp [Spectrum_File_Header.header_length, h])]
  unfold Spectrum_File_Header.decode_body
  rw [if_neg (by simp [Spectrum_File_Header.header_length, h])]
  rw [if_pos (Or.inl rfl)]
  have hfn := decode_file_name_ne_nil ((bs.drop 1).take 10) "" h10
  simp only [List.drop_one] at hfn
  simp [hfn, Except.map]

/-- C9: every 17-byte unwrapped tape header, regardless of content, makes
`Spectrum_File_Header.decode` raise AttributeError while translating the
file-name field (iterating a bytes value yields ints, which have no decode
method), so the unwrapped tape form never returns a boolean result. -/
theorem claim_C9_tape_decode_raises (bs : List Nat) (h : bs.length = 17) :
    Spectrum_File_Header.decode 0 bs = .error .attributeError :=
  sfh_decode_len17_raises bs h

theorem claim_C9_witness :
    Spectrum_File_Header.decode 0 (List.replicate 17 0) = .error .attributeError :=
  claim_C9_tape_decode_raises (List.replicate 17 0) (by decide)

/-- C2, evaluated at the failing input: wrapping the all-zero 17-byte header
as marker, header, xor byte gives a well-formed 19-byte wrapped record, yet
decode returns a false result with a zeroed object, because the leading
marker check compares an int with a bytes constant and never matches; and
decoding the unwrapped 17 bytes directly raises instead of producing the
same fields. -/
theorem claim_C2_bug_eval :
    Spectrum_File_Header.decode 0 (List.replicate 19 0) =
      .ok (Spectrum_File_Header.init 0 "" 0, false)
    ∧ Spectrum_File_Header.decode 0 (List.replicate 17 0) =
      .error .attributeError := by
  constructor
  · rfl
  · rfl

/-- C1 counterexample: the 8-byte +3 BASIC header input 00 05 00 00 00 00 00
00 fails validation (its auto-start line 0 is out of range), so decode
returns false without raising, yet the object is not zeroed: the parsed file
length 5 is left behind. -/
theorem claim_C1_counterexample :
    (Spectrum_File_Header.decode 1 [0, 5, 0, 0, 0, 0, 0, 0]).map
      (fun p => (p.2, p.1.file_length)) = .ok (false, 5)
    ∧ (5 : Nat) ≠ 0 := by
  constructor
  · rfl
  · decide

/-- C1 amended: decode fails with a zeroed object exactly on the
early-rejected shapes: for the tape variant every length other than 17
(including every 19-byte wrapped form, whose marker check never matches),
and for the +3 variant every length other than 8.  A correct-length +3 input
that fails validation after parsing retains the parsed fields, and 17-byte
tape inputs raise AttributeError instead of returning. -/
theorem claim_C1_amended :
    (∀ bs : List Nat, bs.length ≠ 17 →
        Spectrum_File_Header.decode 0 bs = .ok (Spectrum_File_Header.init 0 "" 0, false))
    ∧ (∀ bs : List Nat, bs.length ≠ 8 →
        Spectrum_File_Header.decode 1 bs = .ok (Spectrum_File_Header.init 1 "" 0, false))
    ∧ (∀ bs : List Nat, bs.length = 17 →
        Spectrum_File_Header.decode 0 bs = .error .attributeError)
    ∧ (∀ bs : List Nat, bs.length = 8 → bs.getD 0 0 = 4 →
        Spectrum_File_Header.decode 1 bs =
          .ok ({ (Spectrum_File_Header.init 1 "" 0) with
                 file_type := 4,
                 file_length := le16 (bs.getD 1 0) (bs.getD 2 0) }, false)) := by
  refine ⟨?_, ?_, fun bs h => sfh_decode_len17_raises bs h, ?_⟩
  · intro bs h
    by_cases h19 : bs.length = 19
    · unfold Spectrum_File_Header.decode
      rw [if_pos ⟨rfl, by simp [Spectrum_File_Header.header_length, h19]⟩]
      rw [if_pos (by simp [py_ne_int_bytes, py_eq_int_bytes])]
    · unfold Spectrum_File_Header.decode
      rw [if_neg (by simp [Spectrum_File_Header.header_length, h19])]
      unfold Spectrum_File_Header.decode_body
      rw [if_pos (by simp [Spectrum_File_Header.header_length, h])]
  · intro bs h
    unfold Spectrum_File_Header.decode
    rw [if_neg (by simp [Spectrum_File_Header.header_length])]
    unfold Spectrum_File_Header.decode_body
    rw [if_pos (by simp [Spectrum_File_Header.header_length, h])]
  · intro bs h h0
    have hne : bs ≠ List.replicate 8 0 := by
      intro hc
      rw [hc] at h0
      simp at h0
    unfold Spectrum_File_Header.decode
    rw [if_neg (by simp [Spectrum_File_Header.header_length])]
    unfold Spectrum_File_Header.decode_body
    rw [if_neg (by simp [Spectrum_File_Header.header_length, h])]
    rw [if_pos (Or.inr (by simpa [Spectrum_File_Header.header_length] using hne))]
    simp only [List.getD_eq_getElem?_getD] at h0
    simp [h0, Spectrum_File_Header.init]

theorem claim_C1_amended_witness :
    Spectrum_File_Header.decode 0 (List.replicate 18 0) =
      .ok (Spectrum_File_Header.init 0 "" 0, false)
    ∧ Spectrum_File_Header.decode 1 [1, 2, 3] =
      .ok (Spectrum_File_Header.init 1 "" 0, false)
    ∧ Spectrum_File_Header.decode 0 (List.replicate 17 5) = .error .attributeError
    ∧ Spectrum_File_Header.decode 1 [4, 7, 0, 0, 0, 0, 0, 0] =
      .ok ({ (Spectrum_File_Header.init 1 "" 0) with
             file_type := 4,
             file_length := 7 }, false) := by
  refine ⟨claim_C1_amended.1 _ (by decide), claim_C1_amended.2.1 _ (by decide),
    claim_C1_amended.2.2.1 _ (by decide), ?_⟩
  have h := claim_C1_amended.2.2.2 [4, 7, 0, 0, 0, 0, 0, 0] (by decide) (by decide)
  exact h.trans (by rfl)

def hC4 : Plus3Dos_File_Header :=
  { Plus3Dos_File_Header.init 0 with
    basic_header := Spectrum_File_Header.set_type_numeric_array
      (Spectrum_File_Header.init 1 "" 0) "A" }

def c4_bytes : List Nat := (Plus3Dos_File_Header.encode hC4).toOption.getD []

/-- C4, evaluated at the failing input: a validly constructed header whose
sub-header was populated with set_type_numeric_array and the valid name A
encodes successfully, but decoding those 128 bytes raises AttributeError
(the eagerly evaluated dictionary-get fallback calls decode on an int)
instead of returning a true result with equal fields. -/
theorem claim_C4_bug_eval :
    Plus3Dos_File_Header.encode hC4 = .ok c4_bytes
    ∧ Plus3Dos_File_Header.decode (Plus3Dos_File_Header.init 0) c4_bytes =
      .error .attributeError := by
  constructor
  · rfl
  · rfl

def c5_header : List Nat :=
  (Plus3Dos_File_Header.encode (Plus3Dos_File_Header.init 6)).toOption.getD []

def c5_input : List Nat := c5_header ++ [1, 0, 6, 0, 0xF5, 0x0D]

/-- C5 counterexample: on the claimed input (a valid 128-byte header
declaring a total length of 134, followed by the payload 01 00 06 00 F5 0D),
the converter emits the text SPACE 2 5 6 SPACE SPACE P R I N T SPACE NEWLINE
(the line-number bytes are read big-endian, so 01 00 is 256, and the token
0xF5 expands to PRINT with a leading and a trailing space), which differs
from the claimed text. -/
theorem claim_C5_counterexample :
    spectrum_sinclair_bas_to_unicode c5_input false false = .ok " 256  PRINT \n"
    ∧ (" 256  PRINT \n" : String) ≠ "   1 PRINT\n" := by
  constructor
  · rfl
  · decide

/-- C5 amended: on that input the conversion emits exactly the text
SPACE 2 5 6 SPACE SPACE P R I N T SPACE NEWLINE. -/
theorem claim_C5_amended :
    spectrum_sinclair_bas_to_unicode c5_input false false = .ok " 256  PRINT \n" := by
  rfl

/-- C6 counterexample: in the file 04 00 41 0D the first two-byte field has
value 4, while 2 bytes remain after the field; by the claim the field should
be treated as a real line number, yet the decoder discards it (and the
following budget exhaustion ends the stream), producing empty output with no
line emitted. -/
theorem claim_C6_counterexample :
    spectrum_hisoft_gen_asm_to_unicode [4, 0, 65, 13] true false = .ok ""
    ∧ (4 : Int) ≠ (([4, 0, 65, 13] : List Nat).length : Int) - 2 := by
  constructor
  · rfl
  · decide

/-- C6 amended: the first two-byte field is consumed and discarded exactly
when its value equals the byte budget measured at the start of the field,
that is the remaining byte count including the two field bytes themselves;
with any other value the first iteration behaves exactly like the loop with
the lead check already disabled, and all later fields are always line
numbers. -/
theorem claim_C6_amended (fuel : Nat) (file : List Nat) (pos : Nat)
    (maxLen : Int) (incl stop : Bool) (out : String) :
    ((2 < maxLen →
      ((file.drop pos).take 2).length = 2 →
      (le16 (file.getD pos 0) (file.getD (pos + 1) 0) : Int) = maxLen →
      asm_loop (fuel + 1) file pos maxLen true incl stop out =
        asm_loop fuel file (pos + 2) (maxLen - 2) false incl stop out)
    ∧ ((le16 (file.getD pos 0) (file.getD (pos + 1) 0) : Int) ≠ maxLen →
      asm_loop (fuel + 1) file pos maxLen true incl stop out =
        asm_loop (fuel + 1) file pos maxLen false incl stop out)) := by
  have hb0 : ((file.drop pos).take 2).getD 0 0 = file.getD pos 0 := by
    simp [List.getD_eq_getElem?_getD, List.getElem?_take, List.getElem?_drop]
  have hb1 : ((file.drop pos).take 2).getD 1 0 = file.getD (pos + 1) 0 := by
    simp [List.getD_eq_getElem?_getD, List.getElem?_take, List.getElem?_drop]
  constructor
  · intro hml hlen heq
    simp only [asm_loop]
    rw [hb0, hb1]
    rw [if_neg (by omega)]
    rw [if_neg (by simp [py_eq_int_bytes, hlen])]
    rw [if_pos ⟨by trivial, by omega⟩]
  · intro hne
    have hc : ((le16 (file.getD pos 0) (file.getD (pos + 1) 0) : Int) = maxLen) ↔
        False := iff_false_intro hne
    simp only [List.getD_eq_getElem?_getD] at hc
    simp only [asm_loop]
    simp [hc, py_eq_int_bytes]

theorem claim_C6_amended_witness :
    asm_loop 2 [4, 0, 65, 13] 0 4 true true false "" =
      asm_loop 1 [4, 0, 65, 13] 2 2 false true false ""
    ∧ asm_loop 2 [9, 0, 65, 13] 0 4 true true false "" =
      asm_loop 2 [9, 0, 65, 13] 0 4 false true false "" := by
  constructor
  · exact (claim_C6_amended 1 [4, 0, 65, 13] 0 4 true false "").1 (by decide)
      (by decide) (by decide)
  · exact (claim_C6_amended 1 [9, 0, 65, 13] 0 4 true false "").2 (by decide)

/-- C7 counterexample: with soft-EOF enabled and no header, the assembler
decoder reads the file 1A 00 41 0D whose first header-field byte is the
sentinel; by the claim the stream should terminate with no line emitted, yet
the full line is decoded and emitted. -/
theorem claim_C7_counterexample :
    spectrum_hisoft_gen_asm_to_unicode [0x1A, 0, 0x41, 0x0D] false true = .ok "A\n"
    ∧ ("A\n" : String) ≠ "" := by
  constructor
  · rfl
  · decide

/-- C7 amended: with soft-EOF enabled and no header, the sentinel terminates
the stream only when read as a standalone payload byte (the comparison on
the header-field bytes compares an int to a bytes constant and never
matches), and output already written for the current line, the line-number
prefix included, stays emitted.  The two universal parts state that a
payload read of the sentinel returns immediately with the output accumulated
so far, in both decoders; the four concrete parts show a header-field
sentinel being ignored and a payload sentinel cutting a line short while its
prefix stays, in both decoders. -/
theorem claim_C7_amended :
    (∀ (fuel : Nat) (file : List Nat) (pos : Nat) (maxLen : Int) (out : String),
      0 < maxLen → (file.drop pos).take 1 = SOFT_EOF_BYTE →
      asm_inner (fuel + 1) file pos maxLen true out = .ok (none, out))
    ∧ (∀ (fuel : Nat) (file : List Nat) (pos : Nat) (maxLen : Int)
        (d : List (Nat × String)) (out : String),
      0 < maxLen → (file.drop pos).take 1 = SOFT_EOF_BYTE →
      bas_inner (fuel + 1) file pos maxLen true d out = .ok (none, out))
    ∧ spectrum_hisoft_gen_asm_to_unicode [0x1A, 0, 0x41, 0x0D] false true = .ok "A\n"
    ∧ spectrum_hisoft_gen_asm_to_unicode [0x0A, 0, 0x41, 0x1A, 0x42, 0x0D] true true =
        .ok "    10  A"
    ∧ spectrum_sinclair_bas_to_unicode [0x1A, 0, 0, 0, 0x0D] false true = .ok "6656 \n"
    ∧ spectrum_sinclair_bas_to_unicode [0, 10, 5, 0, 0x41, 0x1A, 0x0D] false true =
        .ok "  10 A" := by
  refine ⟨?_, ?_, rfl, rfl, rfl, rfl⟩
  · intro fuel file pos maxLen out hml hb
    simp only [asm_inner]
    rw [if_neg (by omega)]
    rw [if_pos (Or.inr ⟨trivial, hb⟩)]
  · intro fuel file pos maxLen d out hml hb
    simp only [bas_inner]
    rw [if_neg (by omega)]
    rw [if_pos (Or.inr ⟨trivial, hb⟩)]

theorem claim_C7_amended_witness :
    asm_inner 1 [0x1A] 0 1 true "" = .ok (none, "")
    ∧ bas_inner 1 [0x1A] 0 1 true dict_spectrum128_to_unicode "x" = .ok (none, "x") := by
  constructor
  · exact claim_C7_amended.1 0 [0x1A] 0 1 "" (by decide) (by decide)
  · exact claim_C7_amended.2.1 0 [0x1A] 0 1 dict_spectrum128_to_unicode "x"
      (by decide) (by decide)

/-- C8 counterexample: the assembler-variant table still carries the
byte-to-tab mapping of the keyword variants: byte 0x06 maps to the tab
character in it, exactly as in the 128K table, contradicting the claim that
the mapping is no longer present. -/
theorem claim_C8_counterexample :
    lookupByte dict_spectrum_hisoft_gen_asm_to_unicode 0x06 = some "\t"
    ∧ lookupByte dict_spectrum128_to_unicode 0x06 = some "\t" := by
  constructor
  · rfl
  · rfl

/-- C8 amended: in the text-to-legacy direction the tab key is indeed
removed from the assembler-variant table, so a tab falls through to the
utf-8 fallback and is written literally as byte 0x09; but in the
legacy-to-text direction the assembler-variant table equals the 48K table
unchanged, because the construction deletes the key byte 0x09, which is
absent from the keyword tables, while the byte-to-tab entry is keyed by
0x06 and survives. -/
theorem claim_C8_amended :
    List.lookup "\t" dict_unicode_to_spectrum_hisoft_gen_asm = none
    ∧ List.lookup "\t" dict_unicode_to_spectrum = some 0x06
    ∧ charEncodeUtf8 '\t' = [0x09]
    ∧ dict_spectrum_hisoft_gen_asm_to_unicode = dict_spectrum48_to_unicode
    ∧ lookupByte dict_spectrum48_to_unicode 0x09 = none := by
  refine ⟨rfl, rfl, rfl, ?_, rfl⟩
  decide

/-- C10: one loop iteration of the text-to-assembler converter raises
struct.error exactly when the effective line number (explicit decimal prefix
or the running auto-increment counter) exceeds 65535, and otherwise writes
the two-byte little-endian field followed by the translated text and the
carriage return; at whole-file level an oversized explicit prefix and an
auto-increment step past 65535 both abort the conversion with struct.error. -/
theorem claim_C10_line_number_range :
    (∀ (cur : Nat) (out : List Nat) (line : String),
      65535 < (u2asm_effective cur (py_rstrip line)).1 →
      u2asm_process_line cur out line = .error .structError)
    ∧ (∀ (cur : Nat) (out : List Nat) (line : String),
      (u2asm_effective cur (py_rstrip line)).1 ≤ 65535 →
      u2asm_process_line cur out line =
        .ok ((u2asm_effective cur (py_rstrip line)).1 + 10,
             out ++ [(u2asm_effective cur (py_rstrip line)).1 % 256,
                     (u2asm_effective cur (py_rstrip line)).1 / 256]
                 ++ u2asm_encode_text (u2asm_effective cur (py_rstrip line)).2
                 ++ [0x0D]))
    ∧ unicode_to_spectrum_hisoft_gen_asm ["70000 NOP"] false false =
        .error .structError
    ∧ unicode_to_spectrum_hisoft_gen_asm ["65530 NOP", "HALT"] false false =
        .error .structError := by
  refine ⟨?_, ?_, rfl, rfl⟩
  · intro cur out line h
    rcases he : u2asm_effective cur (py_rstrip line) with ⟨n, text⟩
    rw [he] at h
    simp only at h
    unfold u2asm_process_line
    simp only [he]
    have hn : ¬ (n < 65536) := by omega
    simp [pack_le16, hn, Bind.bind, Except.bind]
  · intro cur out line h
    rcases he : u2asm_effective cur (py_rstrip line) with ⟨n, text⟩
    rw [he] at h
    simp only at h
    unfold u2asm_process_line
    simp only [he]
    have hn : n < 65536 := by omega
    simp [pack_le16, hn, Bind.bind, Except.bind, Pure.pure, Except.pure]

theorem claim_C10_witness :
    u2asm_process_line 0 [] "70000" = .error .structError
    ∧ 65535 < (u2asm_effective 0 (py_rstrip "70000")).1
    ∧ u2asm_process_line 0 [] "12 A" = .ok (22, [12, 0, 65, 13]) := by
  refine ⟨claim_C10_line_number_range.1 0 [] "70000" (by decide), by decide, ?_⟩
  exact (claim_C10_line_number_range.2.1 0 [] "12 A" (by decide)).trans (by rfl)
